import Mathlib

/-!
Verification of the ICD/ACHI validation decision pipeline.

Shallow embedding of the validation pipeline of this repository:
`backend/validators/rag_validator.py` (class RAGValidator: the cache, the
tier cascade in `validate`, the three oracle adapters and
`validate_code_pair`), `backend/database/queries.py` (the relational-store
queries the pipeline issues) and
`backend/validators/hierarchical_validator.py` (`get_icd_chapter`).

External collaborators are modelled as parameters or abstract state:
the SQLite store behind `DatabaseManager` becomes a `Database` value
(point-lookup functions for the code registry, the `valid_relationships`
table as a list in rowid/insertion order), the OpenAI chat completion
endpoint becomes an `Oracle` function from the request the code builds to
either a parsed JSON object (`json.loads` succeeded) or a raised exception,
and Python's `hashlib.md5(...).hexdigest()` becomes an arbitrary digest
function `md5hex : String → String` (every theorem below holds for every
digest function).
-/

/-- Row shape produced by `DatabaseManager.get_icd_with_category`: the SQL
`SELECT i.code, i.description, c.description as category FROM icd10am_codes i
LEFT JOIN icd10_main_categories c ON c.code LIKE substr(i.code,1,3) || '%'
WHERE i.code = ? LIMIT 1`, with the `row['category'] or 'Unknown'` defaulting
already applied. -/
structure IcdData where
  code : String
  description : String
  category : String
  deriving Repr, DecidableEq

/-- Row shape produced by `DatabaseManager.get_achi_with_category`: the SQL
over `achi_codes LEFT JOIN code_blocks`, with the category defaulting
already applied. -/
structure AchiData where
  code : String
  description : String
  short_description : String
  category : String
  block_description : String
  deriving Repr, DecidableEq

/-- Row of the `valid_relationships` table (database_setup.py): one stored,
previously validated (diagnosis, procedure) pair. The `id INTEGER PRIMARY KEY
AUTOINCREMENT` rowid is represented by the row's position in
`Database.relationships` (insertion order). -/
structure Relationship where
  icd_code : String
  icd_description : String
  icd_category : String
  achi_code : String
  achi_description : String
  achi_category : String
  relationship : String
  confidence : Rat
  category : String
  source : String
  deriving Repr, DecidableEq

/-- Row of the `icd_achi_category_mapping` table, as read by
`HierarchicalValidator.get_icd_chapter` and `get_category_mapping_info`. -/
structure MappingRow where
  icd_chapter : String
  achi_main_category_code : String
  icd_chapter_name : String
  achi_main_category_name : String
  mapping_confidence : Rat
  notes : Option String
  deriving Repr, DecidableEq

/-- State of the SQLite store behind the module-level `db_manager`. The code
registry is modelled as the point-lookup functions the pipeline calls
(`get_icd_with_category` / `get_achi_with_category` are exact `WHERE code = ?`
lookups); `relationships` holds `valid_relationships` rows in rowid
(insertion) order; `mapping` holds `icd_achi_category_mapping` rows in rowid
order. -/
structure Database where
  icd_lookup : String → Option IcdData
  achi_lookup : String → Option AchiData
  relationships : List Relationship
  mapping : List MappingRow

/-- Models `DatabaseManager.get_icd_with_category`: exact lookup of one
diagnosis code in the registry, `None` when absent. -/
def get_icd_with_category (db : Database) (icd_code : String) : Option IcdData :=
  db.icd_lookup icd_code

/-- Models `DatabaseManager.get_achi_with_category`: exact lookup of one
procedure code in the registry, `None` when absent. -/
def get_achi_with_category (db : Database) (achi_code : String) : Option AchiData :=
  db.achi_lookup achi_code

/-- Models `DatabaseManager.get_exact_match`: `SELECT * FROM
valid_relationships WHERE icd_code = ? AND achi_code = ?` with `fetchone()`,
i.e. the first matching row in rowid order. -/
def get_exact_match (db : Database) (icd_code achi_code : String) : Option Relationship :=
  db.relationships.find? fun r => r.icd_code == icd_code && r.achi_code == achi_code

/-- Stable insertion step for the descending-confidence sort: the new row is
placed before the first row whose confidence it reaches, so rows of equal
confidence keep their original (rowid) relative order. -/
def insertByConfidence (e : Relationship) : List Relationship → List Relationship
  | [] => [e]
  | x :: xs =>
    if x.confidence ≤ e.confidence then e :: x :: xs else x :: insertByConfidence e xs

/-- Stable sort of relationship rows by descending confidence, ties kept in
input (rowid) order. -/
def sortByConfidenceDesc : List Relationship → List Relationship
  | [] => []
  | x :: xs => insertByConfidence x (sortByConfidenceDesc xs)

/-- Models `DatabaseManager.get_similar_examples`: `SELECT * FROM
valid_relationships WHERE icd_category = ? AND achi_category = ? ORDER BY
confidence DESC LIMIT ?`. The scan visits rows in rowid order and the engine
returns equal-confidence rows in that scan order, modelled by the stable
descending sort. -/
def get_similar_examples (db : Database) (icd_category achi_category : String)
    (limit : Nat) : List Relationship :=
  (sortByConfidenceDesc (db.relationships.filter fun r =>
    r.icd_category == icd_category && r.achi_category == achi_category)).take limit

/-- Descending-confidence ordering on relationship rows: `confRel a b` says
`a` sorts no later than `b` under `ORDER BY confidence DESC`. -/
def confRel (a b : Relationship) : Prop := b.confidence ≤ a.confidence

instance : DecidableRel confRel :=
  fun a b => inferInstanceAs (Decidable (b.confidence ≤ a.confidence))

instance : IsTotal Relationship confRel :=
  ⟨fun a b => le_total b.confidence a.confidence⟩

instance : IsTrans Relationship confRel :=
  ⟨fun _ _ _ h1 h2 => le_trans h2 h1⟩

/-- Request the adapter sends through
`self.client.chat.completions.create(...)`: the model name, the single user
message, and the determinism / shape controls passed on every call. -/
structure OracleRequest where
  model : String
  prompt : String
  temperature : Rat
  seed : Nat
  max_tokens : Nat
  response_format : String
  deriving Repr, DecidableEq

/-- Structured object `json.loads` yields from the service reply. The source
reads the four documented keys and never checks their presence or range, so
each is optional here; a missing key is `none`. -/
structure OracleJson where
  is_valid : Option Bool := none
  reasoning : Option String := none
  confidence : Option Rat := none
  certainty_explanation : Option String := none
  deriving Repr, DecidableEq

/-- Outcome of one `chat.completions.create` call followed by `json.loads`:
either a parsed object, or an exception (transport failure, non-JSON body,
timeout) carrying `str(e)`, caught by the adapter's `except Exception`. -/
inductive OracleOutcome where
  | ok (parsed : OracleJson)
  | exn (msg : String)
  deriving Repr, DecidableEq

/-- Behaviour of the external reasoning service on one call: a function from
the request the adapter builds to the call's outcome. -/
def Oracle : Type := OracleRequest → OracleOutcome

/-- Result dictionary the pipeline returns. The Python dict's key set varies
by code path, so every field is optional; an absent key is `none`. -/
structure VResult where
  is_valid : Option Bool := none
  reasoning : Option String := none
  confidence : Option Rat := none
  certainty_explanation : Option String := none
  source : Option String := none
  similar_examples_count : Option Nat := none
  icd_description : Option String := none
  achi_description : Option String := none
  hierarchical_context : Option Bool := none
  deriving Repr, DecidableEq

/-- Model name fixed in `RAGValidator.__init__`. -/
def RAGValidator.model : String := "gpt-4.1-mini"

/-- Sampling temperature fixed in `RAGValidator.__init__`
(`self.temperature = 0.0`, "ZERO randomness for consistency"). -/
def RAGValidator.temperature : Rat := 0

/-- Seed fixed in `RAGValidator.__init__` (`self.seed = 42`, "Fixed seed for
reproducibility"). -/
def RAGValidator.seed : Nat := 42

/-- Models `RAGValidator._get_cache_key`:
`hashlib.md5(f"{icd_code}:{achi_code}".encode()).hexdigest()`. The MD5
hexdigest is Python standard-library code outside this repository and enters
as the parameter `md5hex`; the theorems below hold for every digest
function. -/
def get_cache_key (md5hex : String → String) (icd_code achi_code : String) : String :=
  md5hex (icd_code ++ ":" ++ achi_code)

/-- In-process response cache `self.cache`, a dict keyed by the cache key. -/
def Cache : Type := String → Option VResult

/-- Dict assignment `self.cache[cache_key] = result`. -/
def Cache.set (c : Cache) (k : String) (v : VResult) : Cache :=
  fun k' => if k' = k then some v else c k'

/-- Dict with no entries (the fresh `self.cache = {}`). -/
def emptyCache : Cache := fun _ => none

/-- Renders an optional value the way a Python f-string renders it: the
string itself, or `None` when the value is missing. -/
def pyStr : Option String → String
  | none => "None"
  | some s => s

/-- Python truthiness of an optional string (`if context['mapping_notes']:`):
false for `None` and for the empty string. -/
def pyTruthy : Option String → Bool
  | none => false
  | some s => s ≠ ""

/-- Models the `"{:.2f}"` rendering of a stored confidence in the few-shot
block: the value rounded to hundredths with two digits after the point. -/
def fmtConf2 (q : Rat) : String :=
  let n : Int := round (q * 100)
  let m := n.natAbs
  let frac := m % 100
  (if n < 0 then "-" else "") ++ toString (m / 100) ++ "." ++
    (if frac < 10 then "0" else "") ++ toString frac

/-- One element of the `examples_text` join in
`RAGValidator.validate_with_similar_examples`. -/
def exampleBlock (i : Nat) (ex : Relationship) : String :=
  "Example " ++ toString (i + 1) ++ " (VALID - Confidence: " ++ fmtConf2 ex.confidence ++
    "):\n" ++
  "ICD: " ++ ex.icd_code ++ " - " ++ ex.icd_description ++ "\n" ++
  "ACHI: " ++ ex.achi_code ++ " - " ++ ex.achi_description ++ "\n" ++
  "Reasoning: " ++ ex.relationship

/-- Prompt built by `RAGValidator.validate_with_similar_examples`. -/
def similarExamplesPrompt (icd_data : IcdData) (achi_data : AchiData)
    (examples : List Relationship) : String :=
  let examples_text :=
    String.intercalate "\n\n" (examples.enum.map fun p => exampleBlock p.1 p.2)
  "You are an expert clinical coding specialist for Australian medical codes.\n\n" ++
  "You have these VALIDATED EXAMPLES from the database showing VALID pairings:\n\n" ++
  examples_text ++
  "\n\nNow validate this NEW pair based on similar patterns:\n\n" ++
  "ICD-10-AM: " ++ icd_data.code ++ " - " ++ icd_data.description ++
    " [Category: " ++ icd_data.category ++ "]\n" ++
  "ACHI: " ++ achi_data.code ++ " - " ++ achi_data.short_description ++
    " [Category: " ++ achi_data.category ++ "]\n\n" ++
  "INSTRUCTIONS:\n" ++
  "1. Compare this pair to the examples above\n" ++
  "2. Determine if it follows similar clinical logic\n" ++
  "3. Provide HONEST confidence based on:\n" ++
  "   - High (0.90-1.0): Very similar to examples, clear clinical indication\n" ++
  "   - Moderate (0.75-0.89): Somewhat similar, generally appropriate\n" ++
  "   - Low (0.60-0.74): Uncertain, edge case\n" ++
  "   - Very low (<0.60): Probably invalid or insufficient evidence\n" ++
  "4. Be conservative: if unsure, mark invalid or give low confidence\n" ++
  "5. Explain WHY you have this confidence level\n\n" ++
  "Respond with JSON only:\n" ++
  "\x7b\n    \"is_valid\": true/false,\n" ++
  "    \"reasoning\": \"Clinical explanation comparing to examples\",\n" ++
  "    \"confidence\": 0.0-1.0,\n" ++
  "    \"certainty_explanation\": \"Why this confidence level based on example similarity\"\n\x7d"

/-- Error dict built by the `except Exception` handlers of
`validate_with_similar_examples` and `validate_pure_ai`: the same literal
appears in both methods. -/
def apiErrorResult (msg : String) : VResult :=
  { is_valid := some false
    reasoning := some ("API Error: " ++ msg)
    confidence := some 0
    certainty_explanation := some "Error calling AI model"
    source := some "error"
    similar_examples_count := some 0 }

/-- Request sent by `RAGValidator.validate_with_similar_examples`. -/
def similarExamplesRequest (icd_data : IcdData) (achi_data : AchiData)
    (examples : List Relationship) : OracleRequest :=
  { model := RAGValidator.model
    prompt := similarExamplesPrompt icd_data achi_data examples
    temperature := RAGValidator.temperature
    seed := RAGValidator.seed
    max_tokens := 800
    response_format := "json_object" }

/-- Models `RAGValidator.validate_with_similar_examples`: builds the few-shot
request, invokes the service, and on success returns the parsed object
unchanged except for the `source` tag and the example count; on any exception
returns the structured error dict. -/
def validate_with_similar_examples (oracle : Oracle) (icd_data : IcdData)
    (achi_data : AchiData) (examples : List Relationship) : VResult :=
  match oracle (similarExamplesRequest icd_data achi_data examples) with
  | .ok parsed =>
    { is_valid := parsed.is_valid
      reasoning := parsed.reasoning
      confidence := parsed.confidence
      certainty_explanation := parsed.certainty_explanation
      source := some "ai_with_examples"
      similar_examples_count := some examples.length }
  | .exn msg => apiErrorResult msg

/-- Context dict built by `HierarchicalValidator.validate_with_hierarchy` and
consumed by `RAGValidator.validate_with_hierarchical_context` /
`validate_code_pair`. Hierarchy fields may be `None` (rendered as `None` in
the prompt); `hierarchical_context` is the flag `validate_code_pair` tests. -/
structure HContext where
  icd_chapter : Option String := none
  icd_chapter_name : Option String := none
  achi_main_category : Option String := none
  achi_main_name : Option String := none
  achi_sub_category : Option String := none
  category_match : Bool := false
  mapping_notes : Option String := none
  hierarchical_context : Bool := false
  deriving Repr, DecidableEq

/-- The `hierarchical_info` block of
`RAGValidator.validate_with_hierarchical_context`, with the
`MAPPING EXAMPLES` line appended only when `context['mapping_notes']` is
truthy. -/
def hierarchicalInfo (icd_code icd_desc achi_code achi_desc : String)
    (context : HContext) : String :=
  let base :=
    "\nHIERARCHICAL CONTEXT:\n\n" ++
    "ICD-10-AM Code: " ++ icd_code ++ " - " ++ icd_desc ++ "\n" ++
    "└─ ICD Chapter: " ++ pyStr context.icd_chapter ++ " (" ++
      pyStr context.icd_chapter_name ++ ")\n\n" ++
    "ACHI Code: " ++ achi_code ++ " - " ++ achi_desc ++ "\n" ++
    "└─ Main Category: " ++ pyStr context.achi_main_category ++ " - " ++
      pyStr context.achi_main_name ++ "\n" ++
    "└─ Sub-Category: " ++ pyStr context.achi_sub_category ++ "\n\n" ++
    "CATEGORY MAPPING STATUS:\n" ++
    pyStr context.icd_chapter_name ++ " ↔ " ++ pyStr context.achi_main_name ++ "\n" ++
    "Mapping Found: " ++ (if context.category_match then "Yes" else "No") ++ "\n"
  if pyTruthy context.mapping_notes then
    base ++ "\nMAPPING EXAMPLES: " ++ pyStr context.mapping_notes
  else base

/-- Prompt built by `RAGValidator.validate_with_hierarchical_context`. -/
def hierarchicalPrompt (icd_code icd_desc achi_code achi_desc : String)
    (context : HContext) : String :=
  "You are an expert clinical coding specialist for Australian ICD-10-AM and ACHI codes.\n\n" ++
  hierarchicalInfo icd_code icd_desc achi_code achi_desc context ++
  "\n\nTASK: Validate if this ACHI procedure is clinically appropriate for this ICD-10-AM diagnosis.\n\n" ++
  "CRITICAL INSTRUCTIONS:\n" ++
  "- Use the hierarchical context as MEDICAL DOMAIN GUIDANCE only\n" ++
  "- Generate confidence based on your ACTUAL medical knowledge and reasoning\n" ++
  "- Do NOT use mapping confidence as your validation confidence\n" ++
  "- Be HONEST about your certainty level\n" ++
  "- Consider the specific procedure within its sub-category context\n\n" ++
  "CONFIDENCE GUIDELINES (be honest):\n" ++
  "- 0.90-1.0: Clear clinical indication or contraindication\n" ++
  "- 0.80-0.89: Strong clinical evidence but some edge cases possible  \n" ++
  "- 0.70-0.79: Moderate clinical appropriateness\n" ++
  "- 0.50-0.69: Uncertain, requires clinical judgment\n" ++
  "- Below 0.50: Very uncertain or inappropriate\n\n" ++
  "Respond with JSON only:\n" ++
  "\x7b\n    \"is_valid\": true/false,\n" ++
  "    \"reasoning\": \"Detailed clinical explanation using hierarchical context\",\n" ++
  "    \"confidence\": 0.0-1.0,\n" ++
  "    \"certainty_explanation\": \"Why this confidence level based on medical reasoning\"\n\x7d"

/-- Request sent by `RAGValidator.validate_with_hierarchical_context`. -/
def hierarchicalRequest (icd_code icd_desc achi_code achi_desc : String)
    (context : HContext) : OracleRequest :=
  { model := RAGValidator.model
    prompt := hierarchicalPrompt icd_code icd_desc achi_code achi_desc context
    temperature := RAGValidator.temperature
    seed := RAGValidator.seed
    max_tokens := 800
    response_format := "json_object" }

/-- Models `RAGValidator.validate_with_hierarchical_context`: builds the
hierarchical-context request, invokes the service, and on success returns the
parsed object with the `source` tag and `hierarchical_context = True`; on any
exception returns the structured error dict. -/
def validate_with_hierarchical_context (oracle : Oracle)
    (icd_code icd_desc achi_code achi_desc : String) (context : HContext) : VResult :=
  match oracle (hierarchicalRequest icd_code icd_desc achi_code achi_desc context) with
  | .ok parsed =>
    { is_valid := parsed.is_valid
      reasoning := parsed.reasoning
      confidence := parsed.confidence
      certainty_explanation := parsed.certainty_explanation
      source := some "ai_hierarchical"
      hierarchical_context := some true }
  | .exn msg =>
    { is_valid := some false
      reasoning := some ("API Error: " ++ msg)
      confidence := some 0
      certainty_explanation := some "Error calling AI model"
      source := some "error"
      hierarchical_context := some false }

/-- Prompt built by `RAGValidator.validate_pure_ai` (decision guidance, eight
fixed few-shot examples, then the pair under validation). -/
def pureAiPrompt (icd_data : IcdData) (achi_data : AchiData) : String :=
  "You are an expert clinical coding specialist for Australian ICD-10-AM and ACHI codes.\n\n" ++
  "DECISION GUIDANCE (use as reference, not strict rules):\n\n" ++
  "1. CATEGORY MISMATCH: Completely unrelated categories → INVALID, high confidence (≥0.90)\n" ++
  "2. SYMPTOM CODES (R/S/T): Valid if procedure is diagnostic, moderate confidence (0.70-0.80)\n" ++
  "3. UNSPECIFIED (.9): Valid but moderate confidence (0.75-0.85) due to lack of specificity\n" ++
  "4. CLEAR INDICATION: Direct clinical relationship → VALID, high confidence (≥0.90)\n" ++
  "5. CONTEXT-DEPENDENT: Valid but requires specific context → moderate confidence (0.70-0.85)\n\n" ++
  "CONFIDENCE GUIDELINES (honest assessment, not constraints):\n" ++
  "- 0.90-1.00: Crystal clear indication or contraindication\n" ++
  "- 0.75-0.89: Strong evidence, generally appropriate or inappropriate\n" ++
  "- 0.60-0.74: Moderate confidence, context-dependent\n" ++
  "- Below 0.60: Uncertain or insufficient evidence\n\n" ++
  "FEW-SHOT EXAMPLES:\n\n" ++
  "Example 1 (INVALID, high confidence):\n" ++
  "ICD: K02.9 (Dental caries) + ACHI: 92209-00 (NIV respiratory support)\n" ++
  "Result: \x7b\"is_valid\": false, \"confidence\": 0.98, \"reasoning\": \"Dental condition has no respiratory indication\", \"certainty_explanation\": \"Clear category mismatch\"\x7d\n\n" ++
  "Example 2 (VALID, high confidence):\n" ++
  "ICD: J45.0 (Asthma) + ACHI: 92209-00 (NIV respiratory support)\n" ++
  "Result: \x7b\"is_valid\": true, \"confidence\": 0.95, \"reasoning\": \"Direct indication for respiratory support in severe asthma\", \"certainty_explanation\": \"Textbook indication\"\x7d\n\n" ++
  "Example 3 (VALID, moderate confidence - symptom code):\n" ++
  "ICD: R07.3 (Other chest pain) + ACHI: 92043-00 (Respiratory medication via nebuliser)\n" ++
  "Result: \x7b\"is_valid\": true, \"confidence\": 0.75, \"reasoning\": \"Symptom code allows plausible respiratory cause, but chest pain is non-specific\", \"certainty_explanation\": \"Symptom code reduces certainty\"\x7d\n\n" ++
  "Example 4 (VALID, moderate confidence - unspecified):\n" ++
  "ICD: J18.9 (Pneumonia, unspecified) + ACHI: 55130-00 (Bronchoscopy with lavage)\n" ++
  "Result: \x7b\"is_valid\": true, \"confidence\": 0.80, \"reasoning\": \"Bronchoscopy appropriate for pneumonia workup, but .9 code lacks specificity\", \"certainty_explanation\": \"Unspecified diagnosis\"\x7d\n\n" ++
  "Example 5 (VALID, moderate-low confidence - context-dependent):\n" ++
  "ICD: R10.4 (Unspecified abdominal pain) + ACHI: 30473-00 (Diagnostic laparoscopy)\n" ++
  "Result: \x7b\"is_valid\": true, \"confidence\": 0.72, \"reasoning\": \"Symptom code suggests investigation, but valid only if alarm features present or failed conservative therapy\", \"certainty_explanation\": \"Requires clinical context\"\x7d\n\n" ++
  "Example 6 (VALID, moderate confidence - context-dependent):\n" ++
  "ICD: I10 (Essential hypertension) + ACHI: 13100-00 (Continuous arterial monitoring)\n" ++
  "Result: \x7b\"is_valid\": true, \"confidence\": 0.82, \"reasoning\": \"Appropriate for hypertensive crisis or perioperative monitoring, not routine outpatient\", \"certainty_explanation\": \"Context-specific indication\"\x7d\n\n" ++
  "Example 7 (VALID, high confidence - preventive):\n" ++
  "ICD: A00.9 (Cholera, unspecified) + ACHI: 92498-00 (Vaccination against cholera)\n" ++
  "Result: \x7b\"is_valid\": true, \"confidence\": 0.90, \"reasoning\": \"Direct prophylactic measure for cholera\", \"certainty_explanation\": \"Standard prevention\"\x7d\n\n" ++
  "Example 8 (INVALID, high confidence - clear mismatch):\n" ++
  "ICD: A90 (Dengue fever) + ACHI: 16520-00 (Caesarean section)\n" ++
  "Result: \x7b\"is_valid\": false, \"confidence\": 0.95, \"reasoning\": \"Dengue is viral infection, not obstetric indication for C-section\", \"certainty_explanation\": \"Completely unrelated categories\"\x7d\n\n" ++
  "NOW VALIDATE THIS PAIR:\n\n" ++
  "ICD-10-AM: " ++ icd_data.code ++ " - " ++ icd_data.description ++
    " [Category: " ++ icd_data.category ++ "]\n" ++
  "ACHI: " ++ achi_data.code ++ " - " ++ achi_data.short_description ++
    " [Category: " ++ achi_data.category ++ "]\n\n" ++
  "Provide HONEST confidence based on your actual medical certainty. No artificial caps or floors.\n\n" ++
  "Respond with JSON only:\n" ++
  "\x7b\n    \"is_valid\": true/false,\n" ++
  "    \"reasoning\": \"Detailed clinical explanation\",\n" ++
  "    \"confidence\": 0.0-1.0,\n" ++
  "    \"certainty_explanation\": \"Why this confidence level\"\n\x7d"

/-- Request sent by `RAGValidator.validate_pure_ai`. -/
def pureAiRequest (icd_data : IcdData) (achi_data : AchiData) : OracleRequest :=
  { model := RAGValidator.model
    prompt := pureAiPrompt icd_data achi_data
    temperature := RAGValidator.temperature
    seed := RAGValidator.seed
    max_tokens := 800
    response_format := "json_object" }

/-- Models `RAGValidator.validate_pure_ai`: builds the no-evidence request,
invokes the service, and on success returns the parsed object with the
`source` tag and a zero example count; on any exception returns the
structured error dict. -/
def validate_pure_ai (oracle : Oracle) (icd_data : IcdData) (achi_data : AchiData) :
    VResult :=
  match oracle (pureAiRequest icd_data achi_data) with
  | .ok parsed =>
    { is_valid := parsed.is_valid
      reasoning := parsed.reasoning
      confidence := parsed.confidence
      certainty_explanation := parsed.certainty_explanation
      source := some "ai_inference"
      similar_examples_count := some 0 }
  | .exn msg => apiErrorResult msg

/-- Error dict returned by `RAGValidator.validate` when the diagnosis code is
absent from the registry. Note the `source` tag is the string `"error"`. -/
def icdNotFoundResult (icd_code : String) : VResult :=
  { is_valid := some false
    reasoning := some ("ICD code " ++ icd_code ++ " not found in database")
    confidence := some 0
    certainty_explanation := some "Code not found"
    source := some "error"
    similar_examples_count := some 0 }

/-- Error dict returned by `RAGValidator.validate` when the procedure code is
absent from the registry. -/
def achiNotFoundResult (achi_code : String) : VResult :=
  { is_valid := some false
    reasoning := some ("ACHI code " ++ achi_code ++ " not found in database")
    confidence := some 0
    certainty_explanation := some "Code not found"
    source := some "error"
    similar_examples_count := some 0 }

/-- Result dict built by `RAGValidator.validate` on an exact stored match. -/
def exactMatchResult (exact : Relationship) (icd_data : IcdData)
    (achi_data : AchiData) : VResult :=
  { is_valid := some true
    reasoning := some exact.relationship
    confidence := some 1
    certainty_explanation := some "Exact match found in validated database"
    source := some "database_exact"
    similar_examples_count := some 0
    icd_description := some icd_data.description
    achi_description := some achi_data.short_description }

/-- Models `RAGValidator.validate`, the pipeline entry point, with the cache
threaded as explicit state. Steps exactly as the source: (1) return a cache
hit verbatim; (2) resolve both codes, returning the uncached not-found error
dict when either lookup fails; (3) return, and cache, the exact-match result
when the store holds this pair; (4) fetch up to five similar examples and
delegate to the few-shot adapter when any exist, else to the pure-inference
adapter; attach the two descriptions; cache the result unconditionally. -/
def validate (md5hex : String → String) (oracle : Oracle) (db : Database)
    (cache : Cache) (icd_code achi_code : String) : VResult × Cache :=
  let cache_key := get_cache_key md5hex icd_code achi_code
  match cache cache_key with
  | some cached => (cached, cache)
  | none =>
    match get_icd_with_category db icd_code with
    | none => (icdNotFoundResult icd_code, cache)
    | some icd_data =>
      match get_achi_with_category db achi_code with
      | none => (achiNotFoundResult achi_code, cache)
      | some achi_data =>
        match get_exact_match db icd_code achi_code with
        | some exact =>
          let result := exactMatchResult exact icd_data achi_data
          (result, cache.set cache_key result)
        | none =>
          let similar_examples :=
            get_similar_examples db icd_data.category achi_data.category 5
          let result0 :=
            if similar_examples.isEmpty then
              validate_pure_ai oracle icd_data achi_data
            else
              validate_with_similar_examples oracle icd_data achi_data similar_examples
          let result :=
            { result0 with
                icd_description := some icd_data.description
                achi_description := some achi_data.short_description }
          (result, cache.set cache_key result)

/-- Models `RAGValidator.validate_code_pair`: when the caller supplies a
context dict whose `hierarchical_context` flag is truthy, go straight to the
hierarchical-context adapter (no cache read, no registry resolution, no
exact-match or similar-example query, and nothing written to the cache);
otherwise fall back to `validate`. -/
def validate_code_pair (md5hex : String → String) (oracle : Oracle) (db : Database)
    (cache : Cache) (icd_code icd_desc achi_code achi_desc : String)
    (context : Option HContext) : VResult × Cache :=
  match context with
  | some ctx =>
    if ctx.hierarchical_context then
      (validate_with_hierarchical_context oracle icd_code icd_desc achi_code achi_desc ctx,
        cache)
    else
      validate md5hex oracle db cache icd_code achi_code
  | none => validate md5hex oracle db cache icd_code achi_code

/-- Fixed letter-to-chapter dict of `HierarchicalValidator.get_icd_chapter`
(`chapter_mapping`), as a partial map: `none` models a key absent from the
dict. -/
def chapter_mapping : Char → Option String
  | 'A' => some "A00-B99"
  | 'B' => some "A00-B99"
  | 'C' => some "C00-D48"
  | 'D' => some "C00-D48"
  | 'E' => some "E00-E89"
  | 'F' => some "F01-F99"
  | 'G' => some "G00-G99"
  | 'H' => some "H00-H95"
  | 'I' => some "I00-I99"
  | 'J' => some "J00-J99"
  | 'K' => some "K00-K93"
  | 'L' => some "L00-L99"
  | 'M' => some "M00-M99"
  | 'N' => some "N00-N99"
  | 'O' => some "O00-O9A"
  | 'P' => some "P00-P96"
  | 'Q' => some "Q00-Q99"
  | 'R' => some "R00-R94"
  | 'S' => some "S00-T98"
  | 'T' => some "S00-T98"
  | 'U' => some "U00-U99"
  | 'V' => some "V01-Y98"
  | 'W' => some "V01-Y98"
  | 'X' => some "V01-Y98"
  | 'Y' => some "V01-Y98"
  | 'Z' => some "Z00-Z99"
  | _ => none

/-- Models `HierarchicalValidator.get_icd_chapter`: `(None, None)` for a
falsy (empty) code; otherwise the first character is uppercased, mapped
through `chapter_mapping` with the `"{letter}00-{letter}99"` fallback, and
the display name is the `icd_chapter_name` of the first
`icd_achi_category_mapping` row for that chapter (`LIMIT 1` in rowid order),
defaulting to `"Diseases starting with {letter}"`. -/
def get_icd_chapter (db : Database) (icd_code : String) :
    Option String × Option String :=
  if icd_code = "" then (none, none)
  else
    let letter := icd_code.front.toUpper
    let chapter_range :=
      (chapter_mapping letter).getD (letter.toString ++ "00-" ++ letter.toString ++ "99")
    let chapter_name :=
      (db.mapping.find? fun row => row.icd_chapter == chapter_range).map
        (·.icd_chapter_name)
    (some chapter_range,
      some (chapter_name.getD ("Diseases starting with " ++ letter.toString)))

/-- Uppercase alphabet, the letters the chapter-totality claim ranges over. -/
def uppercaseAZ : List Char :=
  ['A', 'B', 'C', 'D', 'E', 'F', 'G', 'H', 'I', 'J', 'K', 'L', 'M',
   'N', 'O', 'P', 'Q', 'R', 'S', 'T', 'U', 'V', 'W', 'X', 'Y', 'Z']

/-- Modelled from the spec's words (its fixed alphabetic-to-range table in
§4.2 and the `"{L}00-{L}99"` fallback), to be compared with the source-side
`chapter_mapping` dict: the chapter key the spec assigns to a leading
letter. -/
def specChapterKey (letter : Char) : String :=
  if letter = 'A' ∨ letter = 'B' then "A00-B99"
  else if letter = 'C' ∨ letter = 'D' then "C00-D48"
  else if letter = 'E' then "E00-E89"
  else if letter = 'F' then "F01-F99"
  else if letter = 'G' then "G00-G99"
  else if letter = 'H' then "H00-H95"
  else if letter = 'I' then "I00-I99"
  else if letter = 'J' then "J00-J99"
  else if letter = 'K' then "K00-K93"
  else if letter = 'L' then "L00-L99"
  else if letter = 'M' then "M00-M99"
  else if letter = 'N' then "N00-N99"
  else if letter = 'O' then "O00-O9A"
  else if letter = 'P' then "P00-P96"
  else if letter = 'Q' then "Q00-Q99"
  else if letter = 'R' then "R00-R94"
  else if letter = 'S' ∨ letter = 'T' then "S00-T98"
  else if letter = 'U' then "U00-U99"
  else if letter = 'V' ∨ letter = 'W' ∨ letter = 'X' ∨ letter = 'Y' then "V01-Y98"
  else if letter = 'Z' then "Z00-Z99"
  else letter.toString ++ "00-" ++ letter.toString ++ "99"

/-- Concrete digest function standing in for the MD5 hexdigest in concrete
runs below. The pipeline theorems hold for an arbitrary digest; this
instantiation merely makes concrete executions computable. -/
def idDigest : String → String := fun s => s

/-- Concrete diagnosis registry row used in concrete runs. -/
def icdI10 : IcdData :=
  { code := "I10", description := "Essential hypertension", category := "Circulatory" }

/-- Concrete procedure registry row used in concrete runs. -/
def achiMon : AchiData :=
  { code := "13100-00", description := "Continuous arterial pressure monitoring",
    short_description := "Arterial monitoring", category := "Monitoring",
    block_description := "Monitoring blocks" }

/-- Stored relationship for the exact pair ("I10", "13100-00"). -/
def relExact : Relationship :=
  { icd_code := "I10", icd_description := "Essential hypertension",
    icd_category := "Circulatory", achi_code := "13100-00",
    achi_description := "Arterial monitoring", achi_category := "Monitoring",
    relationship := "Monitoring indicated for hypertensive crisis",
    confidence := 1, category := "Circulatory|Monitoring", source := "ai_generated" }

/-- Stored relationship sharing both categories with ("I10", "13100-00") but
for a different pair, so it is a similar example and not an exact match. -/
def relSimilar : Relationship :=
  { icd_code := "I10.1", icd_description := "Hypertensive heart disease",
    icd_category := "Circulatory", achi_code := "13110-00",
    achi_description := "Venous pressure monitoring", achi_category := "Monitoring",
    relationship := "Monitoring indicated", confidence := 1,
    category := "Circulatory|Monitoring", source := "ai_generated" }

/-- Registry with the two concrete codes and an empty relationship store. -/
def dbNoRel : Database :=
  { icd_lookup := fun c => if c = "I10" then some icdI10 else none
    achi_lookup := fun c => if c = "13100-00" then some achiMon else none
    relationships := []
    mapping := [] }

/-- Same registry, with a stored exact relationship for ("I10", "13100-00"). -/
def dbWithExact : Database := { dbNoRel with relationships := [relExact] }

/-- Same registry, with one similar example and no exact match. -/
def dbWithSimilar : Database := { dbNoRel with relationships := [relSimilar] }

/-- Registry that resolves no code at all. -/
def dbEmptyReg : Database :=
  { icd_lookup := fun _ => none, achi_lookup := fun _ => none,
    relationships := [], mapping := [] }

/-- Oracle behaviour: every call succeeds with a complete parsed object of
confidence zero. -/
def oracleOk : Oracle := fun _ =>
  .ok { is_valid := some true, reasoning := some "Plausible pairing",
        confidence := some 0, certainty_explanation := some "Moderate certainty" }

/-- Oracle behaviour: every call raises (transport failure). -/
def oracleDown : Oracle := fun _ => .exn "Connection timeout"

/-- Oracle behaviour: every call succeeds, but the parsed object is missing
the `confidence` field. -/
def oracleNoConf : Oracle := fun _ =>
  .ok { is_valid := some true, reasoning := some "Looks consistent",
        confidence := none, certainty_explanation := some "Sure" }

/-- Diagnosis registry row whose code contains the cache-key separator. -/
def icdColon : IcdData :=
  { code := "A:B", description := "Diagnosis with colon in code", category := "X" }

/-- Procedure registry row used with `icdColon`. -/
def achiC : AchiData :=
  { code := "C", description := "Procedure C", short_description := "Proc C",
    category := "Y", block_description := "" }

/-- Stored relationship for the exact pair ("A:B", "C"). -/
def relColon : Relationship :=
  { icd_code := "A:B", icd_description := "Diagnosis with colon in code",
    icd_category := "X", achi_code := "C", achi_description := "Proc C",
    achi_category := "Y", relationship := "Colon pair relationship",
    confidence := 1, category := "X|Y", source := "manual_curated" }

/-- Registry for the cache-key collision run: only "A:B" and "C" resolve; in
particular the codes "A" and "B:C" are absent. -/
def dbColon : Database :=
  { icd_lookup := fun c => if c = "A:B" then some icdColon else none
    achi_lookup := fun c => if c = "C" then some achiC else none
    relationships := [relColon]
    mapping := [] }

/-- Caller-supplied hierarchical context with the flag set, as
`HierarchicalValidator.validate_with_hierarchy` builds it. -/
def ctxHier : HContext :=
  { icd_chapter := some "I00-I99", icd_chapter_name := some "Diseases of the circulatory system",
    achi_main_category := some "13", achi_main_name := some "Monitoring",
    achi_sub_category := none, category_match := true, mapping_notes := none,
    hierarchical_context := true }

/-- Result sitting in the cache for the pair ("I10", "13100-00") in the
hierarchical-bypass run. -/
def cachedHit : VResult :=
  { is_valid := some false, reasoning := some "Cached earlier verdict",
    confidence := some 0, certainty_explanation := some "Cached",
    source := some "ai_inference", similar_examples_count := some 0 }

/-- Cache already holding `cachedHit` under the key of ("I10", "13100-00")
for the identity digest. -/
def cacheHolding : Cache := Cache.set emptyCache "I10:13100-00" cachedHit

/-- Lookup after dict assignment at the same key. -/
theorem Cache.get_set_self (c : Cache) (k : String) (v : VResult) :
    Cache.set c k v k = some v := by
  simp [Cache.set]

/-- Branch lemma: a cache hit is returned verbatim, with no store access, no
oracle call and no state change. -/
theorem validate_cache_hit (md5hex : String → String) (oracle : Oracle) (db : Database)
    (cache : Cache) (icd_code achi_code : String) (cached : VResult)
    (h : cache (get_cache_key md5hex icd_code achi_code) = some cached) :
    validate md5hex oracle db cache icd_code achi_code = (cached, cache) := by
  simp only [validate, h]

/-- Branch lemma: on a cache miss with the diagnosis code unresolved, the
not-found error dict is returned and nothing is cached. -/
theorem validate_icd_not_found (md5hex : String → String) (oracle : Oracle)
    (db : Database) (cache : Cache) (icd_code achi_code : String)
    (hc : cache (get_cache_key md5hex icd_code achi_code) = none)
    (hi : db.icd_lookup icd_code = none) :
    validate md5hex oracle db cache icd_code achi_code =
      (icdNotFoundResult icd_code, cache) := by
  simp only [validate, get_icd_with_category, hc, hi]

/-- Branch lemma: on a cache miss with the procedure code unresolved, the
not-found error dict is returned and nothing is cached. -/
theorem validate_achi_not_found (md5hex : String → String) (oracle : Oracle)
    (db : Database) (cache : Cache) (icd_code achi_code : String) (icd_data : IcdData)
    (hc : cache (get_cache_key md5hex icd_code achi_code) = none)
    (hi : db.icd_lookup icd_code = some icd_data)
    (ha : db.achi_lookup achi_code = none) :
    validate md5hex oracle db cache icd_code achi_code =
      (achiNotFoundResult achi_code, cache) := by
  simp only [validate, get_icd_with_category, get_achi_with_category, hc, hi, ha]

/-- Branch lemma: on a cache miss with both codes resolved and a stored exact
relationship, the exact-match result is returned and cached. -/
theorem validate_exact_branch (md5hex : String → String) (oracle : Oracle)
    (db : Database) (cache : Cache) (icd_code achi_code : String)
    (icd_data : IcdData) (achi_data : AchiData) (rel : Relationship)
    (hc : cache (get_cache_key md5hex icd_code achi_code) = none)
    (hi : db.icd_lookup icd_code = some icd_data)
    (ha : db.achi_lookup achi_code = some achi_data)
    (he : get_exact_match db icd_code achi_code = some rel) :
    validate md5hex oracle db cache icd_code achi_code =
      (exactMatchResult rel icd_data achi_data,
        cache.set (get_cache_key md5hex icd_code achi_code)
          (exactMatchResult rel icd_data achi_data)) := by
  simp only [validate, get_icd_with_category, get_achi_with_category, hc, hi, ha, he]

/-- Branch lemma: on a cache miss with both codes resolved, no exact match
and at least one similar example, the few-shot adapter's result with the two
descriptions attached is returned and cached. -/
theorem validate_examples_branch (md5hex : String → String) (oracle : Oracle)
    (db : Database) (cache : Cache) (icd_code achi_code : String)
    (icd_data : IcdData) (achi_data : AchiData)
    (hc : cache (get_cache_key md5hex icd_code achi_code) = none)
    (hi : db.icd_lookup icd_code = some icd_data)
    (ha : db.achi_lookup achi_code = some achi_data)
    (he : get_exact_match db icd_code achi_code = none)
    (hs : (get_similar_examples db icd_data.category achi_data.category 5).isEmpty = false) :
    validate md5hex oracle db cache icd_code achi_code =
      ({ validate_with_similar_examples oracle icd_data achi_data
            (get_similar_examples db icd_data.category achi_data.category 5) with
          icd_description := some icd_data.description
          achi_description := some achi_data.short_description },
        cache.set (get_cache_key md5hex icd_code achi_code)
          { validate_with_similar_examples oracle icd_data achi_data
              (get_similar_examples db icd_data.category achi_data.category 5) with
            icd_description := some icd_data.description
            achi_description := some achi_data.short_description }) := by
  simp only [validate, get_icd_with_category, get_achi_with_category, hc, hi, ha, he, hs,
    Bool.false_eq_true, if_false]

/-- Branch lemma: on a cache miss with both codes resolved, no exact match
and no similar example, the pure-inference adapter's result with the two
descriptions attached is returned and cached. -/
theorem validate_pure_branch (md5hex : String → String) (oracle : Oracle)
    (db : Database) (cache : Cache) (icd_code achi_code : String)
    (icd_data : IcdData) (achi_data : AchiData)
    (hc : cache (get_cache_key md5hex icd_code achi_code) = none)
    (hi : db.icd_lookup icd_code = some icd_data)
    (ha : db.achi_lookup achi_code = some achi_data)
    (he : get_exact_match db icd_code achi_code = none)
    (hs : (get_similar_examples db icd_data.category achi_data.category 5).isEmpty = true) :
    validate md5hex oracle db cache icd_code achi_code =
      ({ validate_pure_ai oracle icd_data achi_data with
          icd_description := some icd_data.description
          achi_description := some achi_data.short_description },
        cache.set (get_cache_key md5hex icd_code achi_code)
          { validate_pure_ai oracle icd_data achi_data with
            icd_description := some icd_data.description
            achi_description := some achi_data.short_description }) := by
  simp only [validate, get_icd_with_category, get_achi_with_category, hc, hi, ha, he, hs,
    if_true]

/-- Rerun lemma: a second `validate` call with the same arguments and an
untouched store returns exactly the first call's result and state, whatever
the second call's oracle behaviour is — so the oracle cannot be invoked the
second time. -/
theorem validate_rerun (md5hex : String → String) (oracle oracle2 : Oracle)
    (db : Database) (cache : Cache) (icd_code achi_code : String) :
    validate md5hex oracle2 db (validate md5hex oracle db cache icd_code achi_code).2
      icd_code achi_code =
    validate md5hex oracle db cache icd_code achi_code := by
  rcases h1 : cache (get_cache_key md5hex icd_code achi_code) with _ | cached
  · rcases h2 : db.icd_lookup icd_code with _ | icd_data
    · rw [validate_icd_not_found md5hex oracle db cache icd_code achi_code h1 h2]
      exact validate_icd_not_found md5hex oracle2 db cache icd_code achi_code h1 h2
    · rcases h3 : db.achi_lookup achi_code with _ | achi_data
      · rw [validate_achi_not_found md5hex oracle db cache icd_code achi_code icd_data
          h1 h2 h3]
        exact validate_achi_not_found md5hex oracle2 db cache icd_code achi_code icd_data
          h1 h2 h3
      · rcases h4 : get_exact_match db icd_code achi_code with _ | rel
        · have hrun : ∃ r, validate md5hex oracle db cache icd_code achi_code =
              (r, cache.set (get_cache_key md5hex icd_code achi_code) r) := by
            rcases h5 : (get_similar_examples db icd_data.category achi_data.category
                5).isEmpty with _ | _
            · exact ⟨_, validate_examples_branch md5hex oracle db cache icd_code achi_code
                icd_data achi_data h1 h2 h3 h4 h5⟩
            · exact ⟨_, validate_pure_branch md5hex oracle db cache icd_code achi_code
                icd_data achi_data h1 h2 h3 h4 h5⟩
          obtain ⟨r, hrun⟩ := hrun
          rw [hrun]
          exact validate_cache_hit md5hex oracle2 db _ icd_code achi_code r
            (Cache.get_set_self cache (get_cache_key md5hex icd_code achi_code) r)
        · rw [validate_exact_branch md5hex oracle db cache icd_code achi_code icd_data
            achi_data rel h1 h2 h3 h4]
          exact validate_cache_hit md5hex oracle2 db _ icd_code achi_code _
            (Cache.get_set_self cache (get_cache_key md5hex icd_code achi_code) _)
  · rw [validate_cache_hit md5hex oracle db cache icd_code achi_code cached h1]
    exact validate_cache_hit md5hex oracle2 db cache icd_code achi_code cached h1

/-- C4: for every pair validated twice with no intervening store mutation,
the second `validate` call returns a result and cache state identical to the
first call's, and this holds for an arbitrary second-call oracle behaviour —
so the reasoning oracle is not invoked on the second call. -/
theorem validate_second_call_identical (md5hex : String → String)
    (oracle oracle2 : Oracle) (db : Database) (cache : Cache)
    (icd_code achi_code : String) :
    validate md5hex oracle2 db (validate md5hex oracle db cache icd_code achi_code).2
      icd_code achi_code =
    validate md5hex oracle db cache icd_code achi_code :=
  validate_rerun md5hex oracle oracle2 db cache icd_code achi_code

/-- C9: every request the adapter builds for the external reasoning service
carries sampling temperature 0 and the fixed seed 42, for each of the three
request templates (few-shot-with-examples, hierarchical-context,
no-evidence), and equal evidence bundles always produce equal requests. -/
theorem oracle_request_deterministic :
    RAGValidator.temperature = 0 ∧ RAGValidator.seed = 42 ∧
    (∀ icd_data achi_data examples,
      (similarExamplesRequest icd_data achi_data examples).temperature = 0 ∧
      (similarExamplesRequest icd_data achi_data examples).seed = 42) ∧
    (∀ icd_data achi_data,
      (pureAiRequest icd_data achi_data).temperature = 0 ∧
      (pureAiRequest icd_data achi_data).seed = 42) ∧
    (∀ icd_code icd_desc achi_code achi_desc context,
      (hierarchicalRequest icd_code icd_desc achi_code achi_desc context).temperature = 0 ∧
      (hierarchicalRequest icd_code icd_desc achi_code achi_desc context).seed = 42) ∧
    (∀ i1 i2 a1 a2 e1 e2, i1 = i2 → a1 = a2 → e1 = e2 →
      similarExamplesRequest i1 a1 e1 = similarExamplesRequest i2 a2 e2) ∧
    (∀ i1 i2 a1 a2, i1 = i2 → a1 = a2 → pureAiRequest i1 a1 = pureAiRequest i2 a2) ∧
    (∀ c1 c2 d1 d2 p1 p2 q1 q2 x1 x2, c1 = c2 → d1 = d2 → p1 = p2 → q1 = q2 → x1 = x2 →
      hierarchicalRequest c1 d1 p1 q1 x1 = hierarchicalRequest c2 d2 p2 q2 x2) := by
  refine ⟨rfl, rfl, fun _ _ _ => ⟨rfl, rfl⟩, fun _ _ => ⟨rfl, rfl⟩,
    fun _ _ _ _ _ => ⟨rfl, rfl⟩, ?_, ?_, ?_⟩
  · intro i1 i2 a1 a2 e1 e2 hi ha he; subst hi; subst ha; subst he; rfl
  · intro i1 i2 a1 a2 hi ha; subst hi; subst ha; rfl
  · intro c1 c2 d1 d2 p1 p2 q1 q2 x1 x2 h1 h2 h3 h4 h5
    subst h1; subst h2; subst h3; subst h4; subst h5; rfl

/-- C10: the cache key is the digest of the string
`"{diagnosis_code}:{procedure_code}"`, so it is not injective over string
pairs: the distinct pairs ("A:B", "C") and ("A", "B:C") get the same key,
and after validating the first pair, `validate` on the second pair returns
the first pair's cached result — even though the second pair's codes are not
in the registry at all. This holds for every digest function. -/
theorem cache_key_collision (md5hex : String → String) :
    get_cache_key md5hex "A:B" "C" = get_cache_key md5hex "A" "B:C" ∧
    ("A:B", "C") ≠ (("A", "B:C") : String × String) ∧
    validate md5hex oracleDown dbColon
        (validate md5hex oracleDown dbColon emptyCache "A:B" "C").2 "A" "B:C" =
      validate md5hex oracleDown dbColon emptyCache "A:B" "C" ∧
    (validate md5hex oracleDown dbColon emptyCache "A:B" "C").1.source =
      some "database_exact" ∧
    dbColon.icd_lookup "A" = none := by
  have harg : ("A" ++ ":" ++ "B:C" : String) = "A:B" ++ ":" ++ "C" := by decide
  have hkey : get_cache_key md5hex "A" "B:C" = get_cache_key md5hex "A:B" "C" := by
    unfold get_cache_key
    exact congrArg md5hex harg
  have h1 : validate md5hex oracleDown dbColon emptyCache "A:B" "C" =
      (exactMatchResult relColon icdColon achiC,
        Cache.set emptyCache (get_cache_key md5hex "A:B" "C")
          (exactMatchResult relColon icdColon achiC)) :=
    validate_exact_branch md5hex oracleDown dbColon emptyCache "A:B" "C"
      icdColon achiC relColon rfl (by decide) (by decide) (by decide)
  refine ⟨hkey.symm, by decide, ?_, ?_, by decide⟩
  · rw [h1]
    refine validate_cache_hit md5hex oracleDown dbColon _ "A" "B:C" _ ?_
    rw [hkey]
    exact Cache.get_set_self emptyCache (get_cache_key md5hex "A:B" "C") _
  · rw [h1]; rfl

/-- C1 (amended): for every pair with a stored exact relationship, `validate`
returns `is_valid = True`, `confidence = 1.0`, the stored relationship text
as reasoning, and the exact-match source tag (the string `"database_exact"`),
for every oracle behaviour — provided both codes resolve in the registry and
the cache holds no entry under the pair's key (the cache tier runs first, so
a stale cached entry wins otherwise, and the not-found tier runs before the
exact-match tier). -/
theorem validate_exact_match_tier (md5hex : String → String) (oracle : Oracle)
    (db : Database) (cache : Cache) (icd_code achi_code : String)
    (icd_data : IcdData) (achi_data : AchiData) (rel : Relationship)
    (hc : cache (get_cache_key md5hex icd_code achi_code) = none)
    (hi : db.icd_lookup icd_code = some icd_data)
    (ha : db.achi_lookup achi_code = some achi_data)
    (he : get_exact_match db icd_code achi_code = some rel) :
    (validate md5hex oracle db cache icd_code achi_code).1.is_valid = some true ∧
    (validate md5hex oracle db cache icd_code achi_code).1.confidence = some 1 ∧
    (validate md5hex oracle db cache icd_code achi_code).1.reasoning =
      some rel.relationship ∧
    (validate md5hex oracle db cache icd_code achi_code).1.source =
      some "database_exact" := by
  rw [validate_exact_branch md5hex oracle db cache icd_code achi_code icd_data achi_data
    rel hc hi ha he]
  exact ⟨rfl, rfl, rfl, rfl⟩

/-- Witness for C1's amended theorem at the concrete pair ("I10", "13100-00")
with the relationship stored, an empty cache and a failing oracle. -/
theorem validate_exact_match_tier_witness :
    (validate idDigest oracleDown dbWithExact emptyCache "I10" "13100-00").1.confidence =
      some 1 ∧
    (validate idDigest oracleDown dbWithExact emptyCache "I10" "13100-00").1.source =
      some "database_exact" := by
  have h := validate_exact_match_tier idDigest oracleDown dbWithExact emptyCache
    "I10" "13100-00" icdI10 achiMon relExact rfl (by decide) (by decide) (by decide)
  exact ⟨h.2.1, h.2.2.2⟩

/-- Counterexample to C1 as stated: the pair ("I10", "13100-00") is first
validated while the store has no exact relationship (the oracle's verdict,
confidence zero, is cached); the relationship is then inserted; the
second `validate` call returns the stale cached result with confidence
zero and the inference tag — not `confidence = 1.0` / the exact-match source
— so the exact-match behaviour does not hold regardless of call order and
cache state. -/
theorem validate_exact_match_stale_cache_cex :
    (get_exact_match dbWithExact "I10" "13100-00").isSome = true ∧
    (validate idDigest oracleOk dbWithExact
        (validate idDigest oracleOk dbNoRel emptyCache "I10" "13100-00").2
        "I10" "13100-00").1.confidence = some 0 ∧
    (validate idDigest oracleOk dbWithExact
        (validate idDigest oracleOk dbNoRel emptyCache "I10" "13100-00").2
        "I10" "13100-00").1.source = some "ai_inference" ∧
    ((0 : Rat) ≠ 1) := by decide

/-- C2 (amended): when either code is absent from the registry (and the cache
holds no entry for the pair), `validate` returns `is_valid = False`,
`confidence = 0.0` and `certainty_explanation = "Code not found"`, but under
the source tag `"error"` — the same tag the oracle-failure path uses, not a
distinct `"not_found"` tag — and the result is never stored in the cache
(the cache state is returned unchanged, so a subsequent call re-resolves
both codes). -/
theorem validate_not_found_result (md5hex : String → String) (oracle : Oracle)
    (db : Database) (cache : Cache) (icd_code achi_code : String)
    (hc : cache (get_cache_key md5hex icd_code achi_code) = none)
    (h : db.icd_lookup icd_code = none ∨
      ∃ icd_data, db.icd_lookup icd_code = some icd_data ∧
        db.achi_lookup achi_code = none) :
    (validate md5hex oracle db cache icd_code achi_code).1.is_valid = some false ∧
    (validate md5hex oracle db cache icd_code achi_code).1.confidence = some 0 ∧
    (validate md5hex oracle db cache icd_code achi_code).1.source = some "error" ∧
    (validate md5hex oracle db cache icd_code achi_code).1.certainty_explanation =
      some "Code not found" ∧
    (validate md5hex oracle db cache icd_code achi_code).2 = cache := by
  rcases h with h | ⟨icd_data, hi, ha⟩
  · rw [validate_icd_not_found md5hex oracle db cache icd_code achi_code hc h]
    exact ⟨rfl, rfl, rfl, rfl, rfl⟩
  · rw [validate_achi_not_found md5hex oracle db cache icd_code achi_code icd_data
      hc hi ha]
    exact ⟨rfl, rfl, rfl, rfl, rfl⟩

/-- Witness for C2's amended theorem at a registry that resolves nothing. -/
theorem validate_not_found_result_witness :
    (validate idDigest oracleOk dbEmptyReg emptyCache "X99" "92209-00").1.confidence =
      some 0 ∧
    (validate idDigest oracleOk dbEmptyReg emptyCache "X99" "92209-00").2 =
      emptyCache := by
  have h := validate_not_found_result idDigest oracleOk dbEmptyReg emptyCache
    "X99" "92209-00" rfl (Or.inl rfl)
  exact ⟨h.2.1, h.2.2.2.2⟩

/-- Counterexample to C2 as stated: on a pair whose codes are absent from the
registry, the result's `source` is the string `"error"`, not `"not_found"` —
the code has no distinct not-found tag. -/
theorem validate_not_found_source_cex :
    (validate idDigest oracleOk dbEmptyReg emptyCache "X99" "92209-00").1.source =
      some "error" ∧
    (validate idDigest oracleOk dbEmptyReg emptyCache "X99" "92209-00").1.source ≠
      some "not_found" := by decide

/-- C3 (amended): a result with `source = "error"` produced when the oracle
call fails IS stored in the cache (`validate` caches unconditionally on the
oracle tiers), and a subsequent `validate` call with identical arguments
returns the cached error without re-invoking the oracle — the fourth
conjunct holds for an arbitrary second-call oracle behaviour. -/
theorem validate_oracle_error_is_cached (md5hex : String → String) (oracle : Oracle)
    (db : Database) (cache : Cache) (icd_code achi_code : String)
    (icd_data : IcdData) (achi_data : AchiData) (msg : String)
    (hc : cache (get_cache_key md5hex icd_code achi_code) = none)
    (hi : db.icd_lookup icd_code = some icd_data)
    (ha : db.achi_lookup achi_code = some achi_data)
    (he : get_exact_match db icd_code achi_code = none)
    (hor : ∀ req, oracle req = OracleOutcome.exn msg) :
    (validate md5hex oracle db cache icd_code achi_code).1.source = some "error" ∧
    (validate md5hex oracle db cache icd_code achi_code).1.confidence = some 0 ∧
    (validate md5hex oracle db cache icd_code achi_code).2
        (get_cache_key md5hex icd_code achi_code) =
      some (validate md5hex oracle db cache icd_code achi_code).1 ∧
    ∀ oracle2, validate md5hex oracle2 db
        (validate md5hex oracle db cache icd_code achi_code).2 icd_code achi_code =
      validate md5hex oracle db cache icd_code achi_code := by
  have hva : validate_with_similar_examples oracle icd_data achi_data
      (get_similar_examples db icd_data.category achi_data.category 5) =
      apiErrorResult msg := by
    unfold validate_with_similar_examples
    rw [hor]
  have hvp : validate_pure_ai oracle icd_data achi_data = apiErrorResult msg := by
    unfold validate_pure_ai
    rw [hor]
  rcases h5 : (get_similar_examples db icd_data.category achi_data.category 5).isEmpty
    with _ | _
  · rw [validate_examples_branch md5hex oracle db cache icd_code achi_code icd_data
      achi_data hc hi ha he h5, hva]
    refine ⟨rfl, rfl, Cache.get_set_self _ _ _, fun oracle2 => ?_⟩
    exact validate_cache_hit md5hex oracle2 db _ icd_code achi_code _
      (Cache.get_set_self _ _ _)
  · rw [validate_pure_branch md5hex oracle db cache icd_code achi_code icd_data
      achi_data hc hi ha he h5, hvp]
    refine ⟨rfl, rfl, Cache.get_set_self _ _ _, fun oracle2 => ?_⟩
    exact validate_cache_hit md5hex oracle2 db _ icd_code achi_code _
      (Cache.get_set_self _ _ _)

/-- Witness for C3's amended theorem: a failing oracle on the pair
("I10", "13100-00") yields an error result that sits in the cache under the
pair's key. -/
theorem validate_oracle_error_is_cached_witness :
    (validate idDigest oracleDown dbNoRel emptyCache "I10" "13100-00").1.source =
      some "error" ∧
    (validate idDigest oracleDown dbNoRel emptyCache "I10" "13100-00").2
        (get_cache_key idDigest "I10" "13100-00") =
      some (validate idDigest oracleDown dbNoRel emptyCache "I10" "13100-00").1 := by
  have h := validate_oracle_error_is_cached idDigest oracleDown dbNoRel emptyCache
    "I10" "13100-00" icdI10 achiMon "Connection timeout" rfl (by decide) (by decide)
    rfl (fun _ => rfl)
  exact ⟨h.1, h.2.2.1⟩

/-- Counterexample to C3 as stated: after one failed-oracle call on
("I10", "13100-00"), a second call with a healthy oracle still returns the
cached error (so the oracle is not re-invoked), whereas the same healthy
oracle from a clean cache produces an inference result. -/
theorem validate_oracle_error_cached_cex :
    (validate idDigest oracleDown dbNoRel emptyCache "I10" "13100-00").1.source =
      some "error" ∧
    (validate idDigest oracleOk dbNoRel
        (validate idDigest oracleDown dbNoRel emptyCache "I10" "13100-00").2
        "I10" "13100-00").1.source = some "error" ∧
    (validate idDigest oracleOk dbNoRel emptyCache "I10" "13100-00").1.source =
      some "ai_inference" := by decide

/-- C5 (amended): the adapter performs no response validation at all — a
reply that `json.loads` parses is accepted verbatim whatever fields it is
missing and whatever its confidence value is (there is no
`MalformedOracleResponse` anywhere in the code): on the examples tier the
parsed fields are passed through unchanged under the `"ai_with_examples"`
tag, and the result IS stored in the cache. Only a reply that raises during
the call or parse yields the `"error"` result — and even that is cached. -/
theorem validate_accepts_unvalidated_json (md5hex : String → String) (oracle : Oracle)
    (db : Database) (cache : Cache) (icd_code achi_code : String)
    (icd_data : IcdData) (achi_data : AchiData) (parsed : OracleJson)
    (hc : cache (get_cache_key md5hex icd_code achi_code) = none)
    (hi : db.icd_lookup icd_code = some icd_data)
    (ha : db.achi_lookup achi_code = some achi_data)
    (he : get_exact_match db icd_code achi_code = none)
    (hs : (get_similar_examples db icd_data.category achi_data.category 5).isEmpty = false)
    (hor : ∀ req, oracle req = OracleOutcome.ok parsed) :
    (validate md5hex oracle db cache icd_code achi_code).1.source =
      some "ai_with_examples" ∧
    (validate md5hex oracle db cache icd_code achi_code).1.confidence =
      parsed.confidence ∧
    (validate md5hex oracle db cache icd_code achi_code).1.is_valid = parsed.is_valid ∧
    (validate md5hex oracle db cache icd_code achi_code).1.certainty_explanation =
      parsed.certainty_explanation ∧
    (validate md5hex oracle db cache icd_code achi_code).2
        (get_cache_key md5hex icd_code achi_code) =
      some (validate md5hex oracle db cache icd_code achi_code).1 := by
  have hva : validate_with_similar_examples oracle icd_data achi_data
      (get_similar_examples db icd_data.category achi_data.category 5) =
      { is_valid := parsed.is_valid
        reasoning := parsed.reasoning
        confidence := parsed.confidence
        certainty_explanation := parsed.certainty_explanation
        source := some "ai_with_examples"
        similar_examples_count :=
          some (get_similar_examples db icd_data.category achi_data.category 5).length } := by
    unfold validate_with_similar_examples
    rw [hor]
  rw [validate_examples_branch md5hex oracle db cache icd_code achi_code icd_data
    achi_data hc hi ha he hs, hva]
  exact ⟨rfl, rfl, rfl, rfl, Cache.get_set_self _ _ _⟩

/-- Witness for C5's amended theorem: a parsed reply missing the
`confidence` field is accepted, tagged `"ai_with_examples"`, and cached. -/
theorem validate_accepts_unvalidated_json_witness :
    (validate idDigest oracleNoConf dbWithSimilar emptyCache "I10" "13100-00").1.source =
      some "ai_with_examples" ∧
    (validate idDigest oracleNoConf dbWithSimilar emptyCache "I10"
      "13100-00").1.confidence = none := by
  have h := validate_accepts_unvalidated_json idDigest oracleNoConf dbWithSimilar
    emptyCache "I10" "13100-00" icdI10 achiMon
    { is_valid := some true, reasoning := some "Looks consistent", confidence := none,
      certainty_explanation := some "Sure" }
    rfl rfl rfl rfl rfl (fun _ => rfl)
  exact ⟨h.1, h.2.1⟩

/-- Counterexample to C5 as stated: on a reply missing the `confidence`
field the pipeline does not return `source = "error"` with
`confidence = 0.0`; it returns the reply under the `"ai_with_examples"` tag
with no confidence value at all, and stores that result in the cache. -/
theorem validate_missing_confidence_cex :
    (validate idDigest oracleNoConf dbWithSimilar emptyCache "I10" "13100-00").1.source =
      some "ai_with_examples" ∧
    (validate idDigest oracleNoConf dbWithSimilar emptyCache "I10" "13100-00").1.source ≠
      some "error" ∧
    (validate idDigest oracleNoConf dbWithSimilar emptyCache "I10"
        "13100-00").1.confidence = none ∧
    (validate idDigest oracleNoConf dbWithSimilar emptyCache "I10" "13100-00").2
        (get_cache_key idDigest "I10" "13100-00") =
      some (validate idDigest oracleNoConf dbWithSimilar emptyCache "I10"
        "13100-00").1 := by decide

/-- C6 (amended): the cascade inside `validate` tests, in this fixed order
with first match winning: cache hit, diagnosis not found, procedure not
found, exact stored match, similar examples sharing both categories, and
finally pure inference — the hierarchical tier is not part of this cascade.
Hierarchical context supplied by the caller is honoured only through
`validate_code_pair`, where it is tested FIRST and goes straight to the
hierarchical adapter, bypassing the cache, not-found, exact-match and
similar-example tiers entirely (and writing nothing to the cache); without
a context flag `validate_code_pair` falls back to `validate`. -/
theorem validate_tier_decision_order (md5hex : String → String) (oracle : Oracle)
    (db : Database) (cache : Cache) (icd_code icd_desc achi_code achi_desc : String) :
    (∀ cached, cache (get_cache_key md5hex icd_code achi_code) = some cached →
      validate md5hex oracle db cache icd_code achi_code = (cached, cache)) ∧
    (cache (get_cache_key md5hex icd_code achi_code) = none →
      db.icd_lookup icd_code = none →
      validate md5hex oracle db cache icd_code achi_code =
        (icdNotFoundResult icd_code, cache)) ∧
    (∀ icd_data, cache (get_cache_key md5hex icd_code achi_code) = none →
      db.icd_lookup icd_code = some icd_data → db.achi_lookup achi_code = none →
      validate md5hex oracle db cache icd_code achi_code =
        (achiNotFoundResult achi_code, cache)) ∧
    (∀ icd_data achi_data rel, cache (get_cache_key md5hex icd_code achi_code) = none →
      db.icd_lookup icd_code = some icd_data → db.achi_lookup achi_code = some achi_data →
      get_exact_match db icd_code achi_code = some rel →
      (validate md5hex oracle db cache icd_code achi_code).1 =
        exactMatchResult rel icd_data achi_data) ∧
    (∀ icd_data achi_data, cache (get_cache_key md5hex icd_code achi_code) = none →
      db.icd_lookup icd_code = some icd_data → db.achi_lookup achi_code = some achi_data →
      get_exact_match db icd_code achi_code = none →
      (get_similar_examples db icd_data.category achi_data.category 5).isEmpty = false →
      (validate md5hex oracle db cache icd_code achi_code).1 =
        { validate_with_similar_examples oracle icd_data achi_data
            (get_similar_examples db icd_data.category achi_data.category 5) with
          icd_description := some icd_data.description
          achi_description := some achi_data.short_description }) ∧
    (∀ icd_data achi_data, cache (get_cache_key md5hex icd_code achi_code) = none →
      db.icd_lookup icd_code = some icd_data → db.achi_lookup achi_code = some achi_data →
      get_exact_match db icd_code achi_code = none →
      (get_similar_examples db icd_data.category achi_data.category 5).isEmpty = true →
      (validate md5hex oracle db cache icd_code achi_code).1 =
        { validate_pure_ai oracle icd_data achi_data with
          icd_description := some icd_data.description
          achi_description := some achi_data.short_description }) ∧
    (∀ ctx : HContext, ctx.hierarchical_context = true →
      validate_code_pair md5hex oracle db cache icd_code icd_desc achi_code achi_desc
        (some ctx) =
      (validate_with_hierarchical_context oracle icd_code icd_desc achi_code achi_desc ctx,
        cache)) ∧
    (∀ ctx : HContext, ctx.hierarchical_context = false →
      validate_code_pair md5hex oracle db cache icd_code icd_desc achi_code achi_desc
        (some ctx) =
      validate md5hex oracle db cache icd_code achi_code) ∧
    (validate_code_pair md5hex oracle db cache icd_code icd_desc achi_code achi_desc
        none =
      validate md5hex oracle db cache icd_code achi_code) := by
  refine ⟨fun cached h => validate_cache_hit md5hex oracle db cache icd_code achi_code
      cached h,
    fun hc hi => validate_icd_not_found md5hex oracle db cache icd_code achi_code hc hi,
    fun icd_data hc hi ha => validate_achi_not_found md5hex oracle db cache icd_code
      achi_code icd_data hc hi ha,
    fun icd_data achi_data rel hc hi ha he => ?_,
    fun icd_data achi_data hc hi ha he hs => ?_,
    fun icd_data achi_data hc hi ha he hs => ?_,
    fun ctx hctx => ?_, fun ctx hctx => ?_, rfl⟩
  · rw [validate_exact_branch md5hex oracle db cache icd_code achi_code icd_data
      achi_data rel hc hi ha he]
  · rw [validate_examples_branch md5hex oracle db cache icd_code achi_code icd_data
      achi_data hc hi ha he hs]
  · rw [validate_pure_branch md5hex oracle db cache icd_code achi_code icd_data
      achi_data hc hi ha he hs]
  · simp only [validate_code_pair, hctx, if_true]
  · simp only [validate_code_pair, hctx, Bool.false_eq_true, if_false]

/-- Counterexample to C6 as stated: with a cache entry present for the pair
AND an exact stored relationship AND caller-supplied hierarchical context,
the claimed order (cache first, hierarchical only after examples) would
return the cached entry; `validate_code_pair` instead answers from the
hierarchical adapter, bypassing both the cache-hit and exact-match tiers. -/
theorem validate_code_pair_hierarchical_bypass_cex :
    cacheHolding (get_cache_key idDigest "I10" "13100-00") = some cachedHit ∧
    (get_exact_match dbWithExact "I10" "13100-00").isSome = true ∧
    (validate_code_pair idDigest oracleOk dbWithExact cacheHolding "I10"
        "Essential hypertension" "13100-00" "Arterial monitoring"
        (some ctxHier)).1.source = some "ai_hierarchical" ∧
    (validate_code_pair idDigest oracleOk dbWithExact cacheHolding "I10"
        "Essential hypertension" "13100-00" "Arterial monitoring"
        (some ctxHier)).1 ≠ cachedHit ∧
    (validate_code_pair idDigest oracleOk dbWithExact cacheHolding "I10"
        "Essential hypertension" "13100-00" "Arterial monitoring"
        (some ctxHier)).1.confidence ≠ some 1 := by decide

/-- Agreement of the source's chapter dict (with its fallback) and the
spec-side table, over the uppercase alphabet. -/
theorem chapter_mapping_agrees : ∀ L ∈ uppercaseAZ,
    (chapter_mapping L).getD (L.toString ++ "00-" ++ L.toString ++ "99") =
      specChapterKey L := by decide

/-- C7: the chapter mapping is total — for every non-empty diagnosis code the
chapter key is non-null; when the code begins with an uppercase letter A–Z
the key follows the fixed table (stated against the spec-side table
`specChapterKey`); a letter absent from the dict falls back to
`"{L}00-{L}99"`; and the display name defaults to
`"Diseases starting with {L}"` when the CategoryMapping store has no row for
the chapter. -/
theorem get_icd_chapter_total (db : Database) (icd_code : String)
    (hne : icd_code ≠ "") :
    (get_icd_chapter db icd_code).1.isSome = true ∧
    (icd_code.front.toUpper ∈ uppercaseAZ →
      (get_icd_chapter db icd_code).1 =
        some (specChapterKey icd_code.front.toUpper)) ∧
    (chapter_mapping icd_code.front.toUpper = none →
      (get_icd_chapter db icd_code).1 =
        some (icd_code.front.toUpper.toString ++ "00-" ++
          icd_code.front.toUpper.toString ++ "99")) ∧
    ((db.mapping.find? fun row => row.icd_chapter ==
        (chapter_mapping icd_code.front.toUpper).getD
          (icd_code.front.toUpper.toString ++ "00-" ++
            icd_code.front.toUpper.toString ++ "99")) = none →
      (get_icd_chapter db icd_code).2 =
        some ("Diseases starting with " ++ icd_code.front.toUpper.toString)) := by
  unfold get_icd_chapter
  rw [if_neg hne]
  refine ⟨rfl, fun hm => ?_, fun hm => ?_, fun hm => ?_⟩
  · exact congrArg some (chapter_mapping_agrees _ hm)
  · show some ((chapter_mapping icd_code.front.toUpper).getD _) = _
    rw [hm]
    rfl
  · show some (((db.mapping.find? fun row => row.icd_chapter ==
        (chapter_mapping icd_code.front.toUpper).getD _).map
          (·.icd_chapter_name)).getD _) = _
    rw [hm]
    rfl

/-- Witness for C7 at the diagnosis code "K02.9" and an empty CategoryMapping
store: chapter key "K00-K93", display name "Diseases starting with K". -/
theorem get_icd_chapter_total_witness :
    (get_icd_chapter dbNoRel "K02.9").1 = some "K00-K93" ∧
    (get_icd_chapter dbNoRel "K02.9").2 = some "Diseases starting with K" := by
  have h := get_icd_chapter_total dbNoRel "K02.9" (by decide)
  exact ⟨(h.2.1 (by decide)).trans (by decide), (h.2.2.2 rfl).trans (by decide)⟩

/-- The stable insertion step is Mathlib's ordered insert for `confRel`. -/
theorem insertByConfidence_eq_orderedInsert (e : Relationship) :
    ∀ l : List Relationship, insertByConfidence e l = List.orderedInsert confRel e l
  | [] => rfl
  | x :: xs => by
    unfold insertByConfidence List.orderedInsert
    rw [insertByConfidence_eq_orderedInsert e xs]
    rfl

/-- The stable sort is Mathlib's insertion sort for `confRel`. -/
theorem sortByConfidenceDesc_eq :
    ∀ l : List Relationship, sortByConfidenceDesc l = List.insertionSort confRel l
  | [] => rfl
  | x :: xs => by
    unfold sortByConfidenceDesc List.insertionSort
    rw [sortByConfidenceDesc_eq xs, insertByConfidence_eq_orderedInsert]

/-- Sorting by descending confidence permutes rows of any one confidence
value back onto themselves in their original order: filtering the sorted
list at a fixed confidence gives exactly the input filtered at it. -/
theorem filter_confidence_insertionSort (l : List Relationship) (c : Rat) :
    (List.insertionSort confRel l).filter (fun r => r.confidence == c) =
      l.filter (fun r => r.confidence == c) := by
  have hmem : ∀ a ∈ l.filter (fun r => r.confidence == c), a.confidence = c := fun a ha =>
    eq_of_beq (List.mem_filter.mp ha).2
  have hpw : (l.filter (fun r => r.confidence == c)).Pairwise confRel := by
    apply List.pairwise_of_forall_mem_list
    intro a ha b hb
    show b.confidence ≤ a.confidence
    rw [hmem a ha, hmem b hb]
  have hsub1 : List.Sublist (l.filter (fun r => r.confidence == c))
      (List.insertionSort confRel l) :=
    List.sublist_insertionSort hpw (List.filter_sublist l)
  have hsub2 : List.Sublist (l.filter (fun r => r.confidence == c))
      ((List.insertionSort confRel l).filter (fun r => r.confidence == c)) := by
    have h2 := hsub1.filter (fun r => r.confidence == c)
    rwa [List.filter_eq_self.mpr (fun a ha => (List.mem_filter.mp ha).2)] at h2
  have hlen : ((List.insertionSort confRel l).filter (fun r => r.confidence == c)).length =
      (l.filter (fun r => r.confidence == c)).length :=
    ((List.perm_insertionSort confRel l).filter _).length_eq
  exact (hsub2.eq_of_length hlen.symm).symm

/-- C8: similar-example retrieval returns at most five rows, sorted by
descending confidence, and rows of equal confidence appear in store
insertion (rowid) order: for every confidence value, the returned rows at
that value are a prefix of the matching stored rows at that value in
insertion order. -/
theorem get_similar_examples_spec (db : Database) (icd_category achi_category : String) :
    (get_similar_examples db icd_category achi_category 5).length ≤ 5 ∧
    (get_similar_examples db icd_category achi_category 5).Pairwise
      (fun a b => b.confidence ≤ a.confidence) ∧
    ∀ c : Rat, ∃ rest,
      ((db.relationships.filter fun r =>
          r.icd_category == icd_category && r.achi_category == achi_category).filter
        fun r => r.confidence == c) =
      ((get_similar_examples db icd_category achi_category 5).filter
        fun r => r.confidence == c) ++ rest := by
  unfold get_similar_examples
  rw [sortByConfidenceDesc_eq]
  refine ⟨?_, ?_, ?_⟩
  · rw [List.length_take]
    exact min_le_left _ _
  · exact (List.sorted_insertionSort confRel _).sublist (List.take_sublist _ _)
  · intro c
    refine ⟨(((db.relationships.filter fun r =>
        r.icd_category == icd_category && r.achi_category == achi_category).insertionSort
          confRel).drop 5).filter fun r => r.confidence == c, ?_⟩
    rw [← filter_confidence_insertionSort
      (db.relationships.filter fun r =>
        r.icd_category == icd_category && r.achi_category == achi_category) c]
    rw [← List.filter_append]
    rw [List.take_append_drop]
